/-
  Verification of the WEATHER_PROJECT services against their specification.

  Shallow embedding of the Python sources:
    - src/services/weather_service.py  (fetch with retry/backoff)
    - src/services/report_service.py   (report validation and formatting)
    - src/services/email_service.py    (header sanitization)
    - src/services/database_service.py (insert with single retry on disconnect)

  Python dynamic values are modelled by `JValue`; dictionaries are association
  lists; exceptions are modelled with `Except`; the external world (HTTP
  responses per attempt, MongoDB insert outcomes per call) is modelled as an
  environment function passed to the embedded operation.
-/
import Mathlib

namespace WeatherProject

/-! ### Python value model -/

/-- A Python value as it occurs in this program: ints, floats, strings,
lists and dicts.  A float is carried as its decimal rendering (Python
`str`/`repr` of the floats appearing here, e.g. `"3.5"`), since the program
never computes with payload floats, only renders them. -/
inductive JValue where
  | num (n : Int)
  | float (repr : String)
  | str (s : String)
  | arr (items : List JValue)
  | obj (fields : List (String × JValue))

/-- Python exceptions that the modelled code can raise. -/
inductive PyErr where
  | keyError (msg : String)
  | typeError
  | attributeError
deriving DecidableEq, Repr

mutual

/-- Python `repr` of a value (quotes around strings; recursive for
containers).  Escape subtleties inside string repr are not needed by any
payload in this program. -/
def pyRepr : JValue → String
  | .num n => toString n
  | .float r => r
  | .str s => "\x27" ++ s ++ "\x27"
  | .arr items => "[" ++ pyReprItems items ++ "]"
  | .obj fields => "\x7b" ++ pyReprFields fields ++ "\x7d"

/-- Comma-separated `repr`s of the elements of a Python list. -/
def pyReprItems : List JValue → String
  | [] => ""
  | [v] => pyRepr v
  | v :: rest => pyRepr v ++ ", " ++ pyReprItems rest

/-- Comma-separated `'key': repr(value)` pairs of a Python dict. -/
def pyReprFields : List (String × JValue) → String
  | [] => ""
  | [(k, v)] => "\x27" ++ k ++ "\x27: " ++ pyRepr v
  | (k, v) :: rest => "\x27" ++ k ++ "\x27: " ++ pyRepr v ++ ", " ++ pyReprFields rest

end

/-- Python `str` of a value: the string itself for strings, `repr`
otherwise. -/
def pyStr : JValue → String
  | .str s => s
  | v => pyRepr v

/-- Does the text start with the pattern? -/
def charsHaveLead : List Char → List Char → Bool
  | [], _ => true
  | _ :: _, [] => false
  | a :: as, b :: bs => a == b && charsHaveLead as bs

/-- Does the pattern occur contiguously in the text? -/
def charsContain (pat : List Char) : List Char → Bool
  | [] => pat.isEmpty
  | b :: bs => charsHaveLead pat (b :: bs) || charsContain pat bs

/-- Python substring test `sub in s` for strings. -/
def strContains (s sub : String) : Bool :=
  charsContain sub.data s.data

/-- Python `==` between a string and an arbitrary value. -/
def eqStrVal (k : String) : JValue → Bool
  | .str s => s == k
  | _ => false

/-- Python membership `k in v` for a string `k`: key lookup on dicts,
substring on strings, element equality on lists, `TypeError` otherwise. -/
def pyContains (k : String) : JValue → Except PyErr Bool
  | .obj fields => .ok (fields.lookup k).isSome
  | .str s => .ok (strContains s k)
  | .arr items => .ok (items.any (eqStrVal k))
  | _ => .error .typeError

/-- Python subscript `v[k]` for a string key: dict lookup raising
`KeyError`, `TypeError` on every non-dict. -/
def JValue.getItem : JValue → String → Except PyErr JValue
  | .obj fields, k =>
      match fields.lookup k with
      | some v => .ok v
      | none => .error (.keyError k)
  | _, _ => .error .typeError

/-- Python `"sep".join(lines)`. -/
def pyJoin (sep : String) : List String → String
  | [] => ""
  | [x] => x
  | x :: rest => x ++ sep ++ pyJoin sep rest

/-- Characters kept by `str.strip()` boundaries / classified as whitespace. -/
def pyIsSpace (c : Char) : Bool := c.isWhitespace

/-- Python `s.strip()` (ASCII-whitespace approximation, which agrees with
Python on every character this program's sanitizers care about). -/
def pyStrip (s : String) : String :=
  String.mk (((s.data.dropWhile pyIsSpace).reverse.dropWhile pyIsSpace).reverse)

/-- Python single-character `s.replace(c, r)` with a one-character
replacement: a character map. -/
def replaceChar (c r : Char) (s : String) : String :=
  String.mk (s.data.map (fun x => if x = c then r else x))

/-- Python single-character `s.replace(c, "")`: drops every occurrence. -/
def dropChar (c : Char) (s : String) : String :=
  String.mk (s.data.filter (fun x => x ≠ c))

/-- Python `ch.isalnum()` (ASCII approximation; agrees with Python on the
line-break and punctuation characters the sanitization claims are about). -/
def pyIsAlnum (c : Char) : Bool := c.isAlphanum

/-! ### src/services/weather_service.py -/

/-- `sanitize_query`: strip line breaks and surrounding whitespace, then
keep only alphanumerics, space, hyphen, underscore and comma. -/
def sanitize_query (query : String) : String :=
  let cleaned := pyStrip (dropChar '\r' (dropChar '\n' query))
  String.mk (cleaned.data.filter (fun ch => pyIsAlnum ch || ch ∈ [' ', '-', '_', ',']))

/-- What one `requests.get` in the fetch loop can yield: a non-ok HTTP
response with its status code, an ok response whose body is not JSON, an ok
response with a parsed JSON value, or a transport-level exception. -/
inductive ApiResponse where
  | httpError (status : Nat)
  | nonJson
  | jsonVal (v : JValue)
  | transportError

/-- The failure classes one attempt of `get_current_weather` can hit,
mirroring the distinct `WeatherApiError` raises and the caught transport
exception. -/
inductive Failure where
  | clientError (status : Nat)
  | serverError (status : Nat)
  | invalidJson
  | unexpectedType
  | missingKeys
  | transport
deriving DecidableEq, Repr

/-- Per-attempt outcome of the body of the `for attempt` loop. -/
inductive AttemptOutcome where
  | success (body : List (String × JValue))
  | failure (f : Failure)

/-- The body of one attempt in `WeatherService.get_current_weather`
(weather_service.py lines 50–88): HTTP status classification, JSON
decoding, object check, and the `main`/`weather` key check; every raise is
reported as a `Failure` because the enclosing `except Exception` catches
them all. -/
def classifyAttempt : ApiResponse → AttemptOutcome
  | .transportError => .failure .transport
  | .httpError status =>
      if 400 ≤ status ∧ status < 500 then .failure (.clientError status)
      else .failure (.serverError status)
  | .nonJson => .failure .invalidJson
  | .jsonVal v =>
      match v with
      | .obj fields =>
          if (fields.lookup "main").isSome ∧ (fields.lookup "weather").isSome then
            .success fields
          else .failure .missingKeys
      | _ => .failure .unexpectedType

/-- Observable outcome of a whole `get_current_weather` call: the returned
payload or the final `WeatherApiError` context (`last_exception`, `none`
when no attempt ran), the number of attempts made, and the chronological
list of back-off sleeps performed. -/
structure FetchResult where
  result : Except (Option Failure) (List (String × JValue))
  attempts : Nat
  delays : List ℚ

/-- The retry loop of `get_current_weather`, recursing on the number of
attempts still allowed; `attempt` is the 1-based index of the next attempt
and `last` the `last_exception` accumulator.  A retryable failure with
attempts remaining records the sleep `retry_delay * 2 ^ (attempt - 1)`. -/
def fetchAux (rd : ℚ) (env : Nat → ApiResponse) :
    Nat → Nat → Option Failure → FetchResult
  | 0, attempt, last => { result := .error last, attempts := attempt - 1, delays := [] }
  | remaining + 1, attempt, _ =>
      match classifyAttempt (env attempt) with
      | .success body => { result := .ok body, attempts := attempt, delays := [] }
      | .failure f =>
          if 0 < remaining then
            let r := fetchAux rd env remaining (attempt + 1) (some f)
            { r with delays := rd * 2 ^ (attempt - 1) :: r.delays }
          else
            fetchAux rd env remaining (attempt + 1) (some f)

/-- `WeatherService.get_current_weather` over an environment assigning to
each 1-based attempt index the response that attempt observes. -/
def get_current_weather (max_retries : Nat) (retry_delay : ℚ)
    (env : Nat → ApiResponse) : FetchResult :=
  fetchAux retry_delay env max_retries 1 none

/-- Default `max_retries` from `WeatherService.__init__`. -/
def default_max_retries : Nat := 3

/-- Default `retry_delay` (1.5 seconds) from `WeatherService.__init__`. -/
def default_retry_delay : ℚ := 3 / 2

/-! ### src/services/report_service.py -/

/-- `_sanitize_text`: replace line breaks by spaces, then strip. -/
def _sanitize_text (text : String) : String :=
  pyStrip (replaceChar '\r' ' ' (replaceChar '\n' ' ' text))

/-- The `required_main` list of `_validate_required_fields`. -/
def required_main : List String :=
  ["temp", "feels_like", "temp_min", "temp_max", "humidity", "pressure"]

/-- The `for key in required_main` loop of `_validate_required_fields`:
raises `KeyError` at the first key not contained in the `main` value. -/
def check_main_keys (mainV : JValue) : List String → Except PyErr Unit
  | [] => .ok ()
  | k :: rest => do
      if (← pyContains k mainV) then check_main_keys mainV rest
      else throw (.keyError ("Missing field \x27" ++ k ++ "\x27 in main"))

/-- `ReportService._validate_required_fields`: presence of the `main`
sub-fields, the `wind` sub-fields, and a non-empty `weather` list whose
first element is a dict. -/
def _validate_required_fields (data : List (String × JValue)) : Except PyErr Unit := do
  match data.lookup "main" with
  | none => throw (.keyError "Missing \x27main\x27 section")
  | some mainV =>
      check_main_keys mainV required_main
      match data.lookup "wind" with
      | none => throw (.keyError "Missing \x27wind\x27 section")
      | some windV =>
          if !(← pyContains "speed" windV) then throw (.keyError "Missing wind fields")
          else if !(← pyContains "deg" windV) then throw (.keyError "Missing wind fields")
          else
            match data.lookup "weather" with
            | some (.arr (first :: _)) =>
                match first with
                | .obj _ => pure ()
                | _ => throw (.keyError "Malformed weather entry")
            | _ => throw (.keyError "Missing \x27weather\x27 section")

/-- The strings interpolated into the report lines of
`build_daily_report`, in the order the Python code computes them. -/
structure ReportFields where
  description : String
  city_clean : String
  temp : String
  feels_like : String
  temp_min : String
  temp_max : String
  humidity : String
  pressure : String
  speed : String
  deg : String

/-- `weather_list[0].get("description", "Unknown")` followed by
`_sanitize_text` (which needs a `str`, AttributeError otherwise), and the
`main[...]`/`wind[...]` subscripts of `build_daily_report` lines 62–81, in
evaluation order. -/
def extract_report_fields (city_name : String) (data : List (String × JValue)) :
    Except PyErr ReportFields := do
  let mainV ← JValue.getItem (.obj data) "main"
  let windV ← JValue.getItem (.obj data) "wind"
  let weatherV ← JValue.getItem (.obj data) "weather"
  let firstEntry ←
    match weatherV with
    | .arr (first :: _) => Except.ok first
    | .arr [] => Except.error .typeError
    | _ => Except.error .typeError
  let descV ←
    match firstEntry with
    | .obj fields => Except.ok ((fields.lookup "description").getD (.str "Unknown"))
    | _ => Except.error .attributeError
  let descS ←
    match descV with
    | .str s => Except.ok s
    | _ => Except.error .attributeError
  let tempV ← mainV.getItem "temp"
  let feelsV ← mainV.getItem "feels_like"
  let tminV ← mainV.getItem "temp_min"
  let tmaxV ← mainV.getItem "temp_max"
  let humV ← mainV.getItem "humidity"
  let presV ← mainV.getItem "pressure"
  let speedV ← windV.getItem "speed"
  let degV ← windV.getItem "deg"
  pure
    { description := _sanitize_text descS
      city_clean := _sanitize_text city_name
      temp := pyStr tempV
      feels_like := pyStr feelsV
      temp_min := pyStr tminV
      temp_max := pyStr tmaxV
      humidity := pyStr humV
      pressure := pyStr presV
      speed := pyStr speedV
      deg := pyStr degV }

/-- The `"-" * 40` separator rule. -/
def report_separator : String := String.mk (List.replicate 40 '-')

/-- The fixed 12-line layout of `build_daily_report`, given the header
timestamp string and the interpolated fields. -/
def report_lines (now_str : String) (f : ReportFields) : List String :=
  [ "WEATHER REPORT (Daily) - " ++ now_str,
    report_separator,
    "City: " ++ f.city_clean,
    "Condition: " ++ f.description,
    "Temperature: " ++ f.temp ++ "°C",
    "Feels Like: " ++ f.feels_like ++ "°C",
    "Minimum / Maximum: " ++ f.temp_min ++ "°C / " ++ f.temp_max ++ "°C",
    "Humidity: " ++ f.humidity ++ "%",
    "Pressure: " ++ f.pressure ++ " hPa",
    "Wind Speed: " ++ f.speed ++ " m/s, Yön: " ++ f.deg ++ "°",
    report_separator,
    "We wish you a good day." ]

/-- `ReportService.build_daily_report`: validate, then build the fixed
multi-line report.  `now_str` stands for
`datetime.now().strftime("%d.%m.%Y %H:%M")`, the only non-deterministic
input. -/
def build_daily_report (now_str : String) (city_name : String)
    (data : List (String × JValue)) : Except PyErr String := do
  _validate_required_fields data
  let f ← extract_report_fields city_name data
  pure (pyJoin "\n" (report_lines now_str f))

/-! ### src/services/email_service.py -/

/-- `EmailService._sanitize_header` on a string input: strip newline
characters from header fields (the non-`str` branch returns `""` and is
outside this model, which types headers as strings). -/
def _sanitize_header (value : String) : String :=
  pyStrip (replaceChar '\r' ' ' (replaceChar '\n' ' ' value))

/-! ### src/services/database_service.py -/

/-- What one `insert_one` call can do: succeed, raise
`errors.AutoReconnect`, or raise another `errors.PyMongoError`. -/
inductive InsertOutcome where
  | ok
  | autoReconnect
  | pyMongoError
deriving DecidableEq, Repr

/-- The `DatabaseError` raises of `save_weather_report`, with the wrapped
cause where the source wraps one. -/
inductive DbError where
  | notDict
  | retryFailed (cause : InsertOutcome)
  | insertFailed
deriving DecidableEq, Repr

/-- Observable outcome of one `save_weather_report` call: how many
`insert_one` calls were made, how many documents were stored (successful
inserts), and whether a `DatabaseError` was raised. -/
structure SaveResult where
  insertCalls : Nat
  stored : Nat
  outcome : Option DbError
deriving DecidableEq, Repr

/-- `DatabaseService.save_weather_report` over an environment assigning an
outcome to each 0-based `insert_one` call: the dict check, the first
insert, the single retry on `AutoReconnect`, and the `DatabaseError`
wrappers. -/
def save_weather_report (raw_data : JValue) (env : Nat → InsertOutcome) : SaveResult :=
  match raw_data with
  | .obj _ =>
      match env 0 with
      | .ok => { insertCalls := 1, stored := 1, outcome := none }
      | .autoReconnect =>
          match env 1 with
          | .ok => { insertCalls := 2, stored := 1, outcome := none }
          | e => { insertCalls := 2, stored := 0, outcome := some (.retryFailed e) }
      | .pyMongoError => { insertCalls := 1, stored := 0, outcome := some .insertFailed }
  | _ => { insertCalls := 0, stored := 0, outcome := some .notDict }

/-! ### Concrete inputs used to instantiate the claims -/

/-- A minimal body accepted by the fetcher: `main` and `weather` present. -/
def okBody : List (String × JValue) := [("main", .obj []), ("weather", .arr [])]

/-- Environment where attempt 1 sees an HTTP 404 and every later attempt a
valid body. -/
def envAfter404 : Nat → ApiResponse :=
  fun i => if i = 1 then .httpError 404 else .jsonVal (.obj okBody)

/-- Environment where every attempt sees an HTTP 500. -/
def envAll500 : Nat → ApiResponse := fun _ => .httpError 500

/-- Environment with two HTTP 500s and then a valid body. -/
def env500x2 : Nat → ApiResponse :=
  fun i => if i ≤ 2 then .httpError 500 else .jsonVal (.obj okBody)

/-- Environment where every attempt sees a JSON object missing `main` and
`weather`. -/
def envMissingKeys : Nat → ApiResponse :=
  fun _ => .jsonVal (.obj [("cod", .num 404)])

/-- The example payload of spec §8: full `main`, `wind`, and one weather
entry with description `"clear sky"`. -/
def payload8 : List (String × JValue) :=
  [("main", .obj [("temp", .num 20), ("feels_like", .num 19), ("temp_min", .num 18),
                  ("temp_max", .num 22), ("humidity", .num 60), ("pressure", .num 1012)]),
   ("wind", .obj [("speed", .float "3.5"), ("deg", .num 180)]),
   ("weather", .arr [.obj [("description", .str "clear sky")]])]

/-- The `payload8` payload with the `humidity` sub-field removed. -/
def payloadNoHumidity : List (String × JValue) :=
  [("main", .obj [("temp", .num 20), ("feels_like", .num 19), ("temp_min", .num 18),
                  ("temp_max", .num 22), ("pressure", .num 1012)]),
   ("wind", .obj [("speed", .float "3.5"), ("deg", .num 180)]),
   ("weather", .arr [.obj [("description", .str "clear sky")]])]

/-- A payload with every required key present but a non-string
`description` in the first weather entry. -/
def payloadBadDescription : List (String × JValue) :=
  [("main", .obj [("temp", .num 20), ("feels_like", .num 19), ("temp_min", .num 18),
                  ("temp_max", .num 22), ("humidity", .num 60), ("pressure", .num 1012)]),
   ("wind", .obj [("speed", .float "3.5"), ("deg", .num 180)]),
   ("weather", .arr [.obj [("description", .num 7)]])]

/-- A payload with every required key present and every `main`/`wind`
value a (non-numeric) string. -/
def payloadStringValues : List (String × JValue) :=
  [("main", .obj [("temp", .str "warm"), ("feels_like", .str "warmer"),
                  ("temp_min", .str "low"), ("temp_max", .str "high"),
                  ("humidity", .str "humid"), ("pressure", .str "heavy")]),
   ("wind", .obj [("speed", .str "breezy"), ("deg", .str "north")]),
   ("weather", .arr [.obj [("description", .str "strange sky")]])]

/-- Insert environment: `AutoReconnect` on the first call, success on the
retry. -/
def envDbRetryOk : Nat → InsertOutcome := fun i => if i = 0 then .autoReconnect else .ok

/-- Insert environment: `AutoReconnect` on every call. -/
def envDbAllDown : Nat → InsertOutcome := fun _ => .autoReconnect

/-- All required-field presence checks of `_validate_required_fields` as
one boolean: `main` is a dict with the six sub-fields, `wind` a dict with
`speed` and `deg`, `weather` a non-empty list whose first element is a
dict. -/
def requiredKeysPresent (data : List (String × JValue)) : Bool :=
  (match data.lookup "main" with
   | some (.obj mf) => required_main.all (fun k => (mf.lookup k).isSome)
   | _ => false)
  && (match data.lookup "wind" with
      | some (.obj wf) => (wf.lookup "speed").isSome && (wf.lookup "deg").isSome
      | _ => false)
  && (match data.lookup "weather" with
      | some (.arr (first :: _)) =>
          (match first with | .obj _ => true | _ => false)
      | _ => false)

/-- The `main` and `wind` sections, when present, are dicts — the shape
under which missing fields surface as `KeyError` rather than the
`TypeError`/substring semantics Python gives non-dict sections. -/
def saneSections (data : List (String × JValue)) : Bool :=
  (match data.lookup "main" with
   | some (.obj _) => true
   | none => true
   | some _ => false)
  && (match data.lookup "wind" with
      | some (.obj _) => true
      | none => true
      | some _ => false)

/-- The first weather entry's `description`, when present, is a string (so
`_sanitize_text` can `.replace` on it). -/
def descriptionOk (data : List (String × JValue)) : Bool :=
  match data.lookup "weather" with
  | some (.arr ((.obj fields) :: _)) =>
      (match fields.lookup "description" with
       | some (.str _) => true
       | none => true
       | some _ => false)
  | _ => false

/-! ### Lemmas about the fetch retry loop -/

/-- As long as at least one attempt remains, the loop performs at least the
next attempt. -/
lemma fetchAux_attempts_ge (rd : ℚ) (env : Nat → ApiResponse) :
    ∀ remaining attempt last, 1 ≤ remaining →
      attempt ≤ (fetchAux rd env remaining attempt last).attempts := by
  intro remaining
  induction remaining with
  | zero => intro attempt last h; omega
  | succ r ih =>
      intro attempt last _
      cases hc : classifyAttempt (env attempt) with
      | success body => simp [fetchAux, hc]
      | failure f =>
          by_cases hr : 0 < r
          · have := ih (attempt + 1) (some f) hr
            simp [fetchAux, hc, hr]
            omega
          · have hr0 : r = 0 := by omega
            subst hr0
            simp [fetchAux, hc]

/-- The recorded sleeps are exactly one back-off delay per non-final
attempt actually made: `rd * 2 ^ (i - 1)` after attempt `i`. -/
lemma fetchAux_delays (rd : ℚ) (env : Nat → ApiResponse) :
    ∀ remaining attempt last, 1 ≤ attempt →
      (fetchAux rd env remaining attempt last).delays
        = (List.range ((fetchAux rd env remaining attempt last).attempts - attempt)).map
            (fun j => rd * 2 ^ (attempt - 1 + j)) := by
  intro remaining
  induction remaining with
  | zero => intro attempt last h; simp [fetchAux]
  | succ r ih =>
      intro attempt last h
      cases hc : classifyAttempt (env attempt) with
      | success body => simp [fetchAux, hc]
      | failure f =>
          by_cases hr : 0 < r
          · have hge := fetchAux_attempts_ge rd env r (attempt + 1) (some f) hr
            have hrec := ih (attempt + 1) (some f) (by omega)
            simp only [fetchAux, hc, hr, if_true]
            set a := (fetchAux rd env r (attempt + 1) (some f)).attempts with ha
            have hsub : a - attempt = (a - (attempt + 1)) + 1 := by omega
            rw [hrec, hsub, List.range_succ_eq_map]
            simp only [List.map_cons, List.map_map, Nat.add_zero]
            congr 1
            apply List.map_congr_left
            intro j _
            simp only [Function.comp_apply]
            congr 2
            omega
          · have hr0 : r = 0 := by omega
            subst hr0
            simp [fetchAux, hc]

/-- If every attempt in the remaining window fails, the loop uses the whole
window and raises with the last attempt's failure as context. -/
lemma fetchAux_exhaust (rd : ℚ) (env : Nat → ApiResponse) :
    ∀ remaining attempt last, 1 ≤ remaining →
      (∀ j, attempt ≤ j → j < attempt + remaining →
        ∃ f, classifyAttempt (env j) = .failure f) →
      ∃ flast, classifyAttempt (env (attempt + remaining - 1)) = .failure flast ∧
        (fetchAux rd env remaining attempt last).result = .error (some flast) ∧
        (fetchAux rd env remaining attempt last).attempts = attempt + remaining - 1 := by
  intro remaining
  induction remaining with
  | zero => intro attempt last h; omega
  | succ r ih =>
      intro attempt last _ hf
      obtain ⟨f, hc⟩ := hf attempt (le_refl _) (by omega)
      by_cases hr : 0 < r
      · obtain ⟨flast, hcl, hres, hatt⟩ :=
          ih (attempt + 1) (some f) hr
            (fun j hj1 hj2 => hf j (by omega) (by omega))
        refine ⟨flast, ?_, ?_, ?_⟩
        · have : attempt + 1 + r - 1 = attempt + (r + 1) - 1 := by omega
          rwa [this] at hcl
        · simp [fetchAux, hc, hr, hres]
        · simp only [fetchAux, hc, hr, if_true]
          omega
      · have hr0 : r = 0 := by omega
        subst hr0
        refine ⟨f, ?_, ?_, ?_⟩
        · simpa using hc
        · simp [fetchAux, hc]
        · simp [fetchAux, hc]

/-- If the attempts before `k` fail and attempt `k` (inside the window)
succeeds with `body`, the loop returns `body` after exactly `k` attempts. -/
lemma fetchAux_success (rd : ℚ) (env : Nat → ApiResponse) :
    ∀ remaining attempt last k body, attempt ≤ k → k < attempt + remaining →
      (∀ j, attempt ≤ j → j < k → ∃ f, classifyAttempt (env j) = .failure f) →
      classifyAttempt (env k) = .success body →
      (fetchAux rd env remaining attempt last).result = .ok body ∧
        (fetchAux rd env remaining attempt last).attempts = k := by
  intro remaining
  induction remaining with
  | zero => intro attempt last k body h1 h2; omega
  | succ r ih =>
      intro attempt last k body h1 h2 hf hk
      by_cases heq : attempt = k
      · subst heq
        simp [fetchAux, hk]
      · obtain ⟨f, hc⟩ := hf attempt (le_refl _) (by omega)

        by_cases hr : 0 < r
        · obtain ⟨hres, hatt⟩ :=
            ih (attempt + 1) (some f) k body (by omega) (by omega)
              (fun j hj1 hj2 => hf j (by omega) hj2) hk
          constructor
          · simp [fetchAux, hc, hr, hres]
          · simp [fetchAux, hc, hr, hatt]
        · have hr0 : r = 0 := by omega
          omega

/-- A successful loop result comes from a successful attempt inside the
window. -/
lemma fetchAux_ok (rd : ℚ) (env : Nat → ApiResponse) :
    ∀ remaining attempt last body,
      (fetchAux rd env remaining attempt last).result = .ok body →
      ∃ i, attempt ≤ i ∧ i < attempt + remaining ∧
        classifyAttempt (env i) = .success body := by
  intro remaining
  induction remaining with
  | zero => intro attempt last body h; simp [fetchAux] at h
  | succ r ih =>
      intro attempt last body h
      cases hc : classifyAttempt (env attempt) with
      | success b =>
          simp [fetchAux, hc] at h
          exact ⟨attempt, le_refl _, by omega, by rw [hc, h]⟩
      | failure f =>
          by_cases hr : 0 < r
          · simp only [fetchAux, hc, hr, if_true] at h
            obtain ⟨i, hi1, hi2, hi3⟩ := ih (attempt + 1) (some f) body h
            exact ⟨i, by omega, by omega, hi3⟩
          · have hr0 : r = 0 := by omega
            subst hr0
            simp [fetchAux, hc] at h

/-- A successful attempt is an ok HTTP response whose body parsed to a JSON
object containing both `main` and `weather`; the body is passed through
unchanged. -/
lemma classifyAttempt_success (r : ApiResponse) (body : List (String × JValue))
    (h : classifyAttempt r = .success body) :
    r = .jsonVal (.obj body) ∧ (body.lookup "main").isSome ∧
      (body.lookup "weather").isSome := by
  cases r with
  | httpError s =>
      simp only [classifyAttempt] at h
      split at h <;> simp_all
  | nonJson => simp [classifyAttempt] at h
  | transportError => simp [classifyAttempt] at h
  | jsonVal v =>
      cases v with
      | obj fields =>
          simp only [classifyAttempt] at h
          split at h
          · rename_i hkeys
            cases h
            exact ⟨rfl, hkeys.1, hkeys.2⟩
          · cases h
      | num n => simp [classifyAttempt] at h
      | float r => simp [classifyAttempt] at h
      | str s => simp [classifyAttempt] at h
      | arr items => simp [classifyAttempt] at h

/-- With prefix failures through attempt `i` and room in the budget, the
loop reaches at least attempt `i + 1`. -/
lemma fetchAux_reaches (rd : ℚ) (env : Nat → ApiResponse) :
    ∀ remaining attempt last i, attempt ≤ i + 1 → i + 1 < attempt + remaining →
      (∀ j, attempt ≤ j → j ≤ i → ∃ f, classifyAttempt (env j) = .failure f) →
      i + 1 ≤ (fetchAux rd env remaining attempt last).attempts := by
  intro remaining
  induction remaining with
  | zero => intro attempt last i h1 h2; omega
  | succ r ih =>
      intro attempt last i h1 h2 hf
      by_cases heq : attempt = i + 1
      · subst heq
        exact fetchAux_attempts_ge rd env (r + 1) (i + 1) last (by omega)
      · obtain ⟨f, hc⟩ := hf attempt (le_refl _) (by omega)
        by_cases hr : 0 < r
        · have := ih (attempt + 1) (some f) i (by omega) (by omega)
            (fun j hj1 hj2 => hf j (by omega) hj2)
          simp only [fetchAux, hc, hr, if_true]
          exact this
        · omega

/-! ### Lemmas about the sanitizers -/

/-- `dropWhile` only keeps characters of the input. -/
lemma mem_of_mem_dropWhile {α} (p : α → Bool) :
    ∀ (l : List α) (x : α), x ∈ l.dropWhile p → x ∈ l := by
  intro l
  induction l with
  | nil => intro x h; simp at h
  | cons a t ih =>
      intro x h
      rw [List.dropWhile_cons] at h
      split at h
      · exact List.mem_cons_of_mem a (ih x h)
      · exact h

/-- `pyStrip` only keeps characters of the input. -/
lemma mem_of_mem_pyStrip (x : Char) (s : String) (h : x ∈ (pyStrip s).data) :
    x ∈ s.data := by
  simp only [pyStrip] at h
  rw [List.mem_reverse] at h
  have h2 := mem_of_mem_dropWhile pyIsSpace _ x h
  rw [List.mem_reverse] at h2
  exact mem_of_mem_dropWhile pyIsSpace _ x h2

/-- A character of `replaceChar c r s` is the replacement `r` or a
character of `s` other than `c`. -/
lemma mem_replaceChar (x c r : Char) (s : String) (h : x ∈ (replaceChar c r s).data) :
    x = r ∨ (x ∈ s.data ∧ x ≠ c) := by
  simp only [replaceChar] at h
  rw [List.mem_map] at h
  obtain ⟨y, hy, hxy⟩ := h
  by_cases hyc : y = c
  · subst hyc
    simp only [if_pos rfl] at hxy
    exact Or.inl hxy.symm
  · simp only [if_neg hyc] at hxy
    subst hxy
    exact Or.inr ⟨hy, hyc⟩

/-- Replacing both line-break characters by spaces and stripping leaves no
line-break character (the shared body of `_sanitize_text` and
`_sanitize_header`). -/
lemma strip_replace_no_linebreaks (s : String) :
    '\n' ∉ (pyStrip (replaceChar '\r' ' ' (replaceChar '\n' ' ' s))).data ∧
      '\r' ∉ (pyStrip (replaceChar '\r' ' ' (replaceChar '\n' ' ' s))).data := by
  constructor
  · intro h
    have h1 := mem_of_mem_pyStrip _ _ h
    rcases mem_replaceChar _ _ _ _ h1 with h2 | ⟨h2, _⟩
    · exact absurd h2 (by decide)
    · rcases mem_replaceChar _ _ _ _ h2 with h3 | ⟨_, h3⟩
      · exact absurd h3 (by decide)
      · exact h3 rfl
  · intro h
    have h1 := mem_of_mem_pyStrip _ _ h
    rcases mem_replaceChar _ _ _ _ h1 with h2 | ⟨_, h2⟩
    · exact absurd h2 (by decide)
    · exact h2 rfl

/-! ### Lemmas about the report validator and builder -/

/-- Unfolding of one step of the `required_main` loop on a dict `main`. -/
lemma check_main_keys_cons (mf : List (String × JValue)) (k : String) (rest : List String) :
    check_main_keys (.obj mf) (k :: rest)
      = if (mf.lookup k).isSome then check_main_keys (.obj mf) rest
        else .error (.keyError ("Missing field \x27" ++ k ++ "\x27 in main")) := rfl

/-- The `required_main` loop on a dict `main` succeeds iff every listed key
is present. -/
lemma check_main_keys_ok_iff (mf : List (String × JValue)) :
    ∀ ks, check_main_keys (.obj mf) ks = .ok () ↔ ∀ k ∈ ks, (mf.lookup k).isSome := by
  intro ks
  induction ks with
  | nil => simp [check_main_keys]
  | cons k rest ih =>
      rw [check_main_keys_cons, List.forall_mem_cons]
      by_cases hk : (mf.lookup k).isSome
      · rw [if_pos hk, ih]
        simp [hk]
      · rw [if_neg hk]
        simp [hk]

/-- On a dict `main`, the loop can only succeed or raise a `KeyError`. -/
lemma check_main_keys_cases (mf : List (String × JValue)) :
    ∀ ks, check_main_keys (.obj mf) ks = .ok () ∨
      ∃ msg, check_main_keys (.obj mf) ks = .error (.keyError msg) := by
  intro ks
  induction ks with
  | nil => exact Or.inl rfl
  | cons k rest ih =>
      rw [check_main_keys_cons]
      by_cases hk : (mf.lookup k).isSome
      · rw [if_pos hk]
        exact ih
      · rw [if_neg hk]
        exact Or.inr ⟨_, rfl⟩

/-- `Except` bind on a success. -/
lemma except_bind_ok {ε α β : Type} (a : α) (k : α → Except ε β) :
    (Except.ok a >>= k) = k a := rfl

/-- `Except` bind on an error. -/
lemma except_bind_err {ε α β : Type} (e : ε) (k : α → Except ε β) :
    ((Except.error e : Except ε α) >>= k) = .error e := rfl

/-- A payload whose required keys are all present passes
`_validate_required_fields`. -/
lemma validate_ok_of_required (data : List (String × JValue))
    (h : requiredKeysPresent data = true) :
    _validate_required_fields data = .ok () := by
  unfold requiredKeysPresent at h
  rw [Bool.and_eq_true, Bool.and_eq_true] at h
  obtain ⟨⟨hA, hB⟩, hC⟩ := h
  cases hm : data.lookup "main" with
  | none => rw [hm] at hA; cases hA
  | some mainV =>
      rw [hm] at hA
      cases mainV with
      | obj mf =>
          cases hw : data.lookup "wind" with
          | none => rw [hw] at hB; cases hB
          | some windV =>
              rw [hw] at hB
              cases windV with
              | obj wf =>
                  rw [Bool.and_eq_true] at hB
                  obtain ⟨hsp, hdg⟩ := hB
                  cases hwe : data.lookup "weather" with
                  | none => rw [hwe] at hC; cases hC
                  | some weatherV =>
                      rw [hwe] at hC
                      cases weatherV with
                      | arr items =>
                          cases items with
                          | nil => cases hC
                          | cons first rest =>
                              cases first with
                              | obj ff =>
                                  have hall : ∀ k ∈ required_main, (mf.lookup k).isSome :=
                                    fun k hk => List.all_eq_true.mp hA k hk
                                  simp only [_validate_required_fields, hm,
                                    (check_main_keys_ok_iff mf required_main).mpr hall,
                                    except_bind_ok, hw, pyContains, hsp, hdg, hwe,
                                    Bool.not_true, Bool.false_eq_true, if_false]
                                  rfl
                              | num n => cases hC
                              | float r => cases hC
                              | str s => cases hC
                              | arr a => cases hC
                      | num n => cases hC
                      | float r => cases hC
                      | str s => cases hC
                      | obj o => cases hC
              | num n => cases hB
              | float r => cases hB
              | str s => cases hB
              | arr a => cases hB
      | num n => cases hA
      | float r => cases hA
      | str s => cases hA
      | arr a => cases hA

/-- When the `main`/`wind` sections (when present) are dicts and some
required field is missing, `_validate_required_fields` raises a
`KeyError`. -/
lemma validate_keyError_of_missing (data : List (String × JValue))
    (hs : saneSections data = true) (h : requiredKeysPresent data = false) :
    ∃ msg, _validate_required_fields data = .error (.keyError msg) := by
  unfold saneSections at hs
  rw [Bool.and_eq_true] at hs
  obtain ⟨hsA, hsB⟩ := hs
  cases hm : data.lookup "main" with
  | none =>
      refine ⟨"Missing \x27main\x27 section", ?_⟩
      simp only [_validate_required_fields, hm]
      rfl
  | some mainV =>
      rw [hm] at hsA
      cases mainV with
      | obj mf =>
          rcases check_main_keys_cases mf required_main with hc | ⟨msg, hc⟩
          · cases hw : data.lookup "wind" with
            | none =>
                refine ⟨"Missing \x27wind\x27 section", ?_⟩
                simp only [_validate_required_fields, hm, hc, except_bind_ok, hw]
                rfl
            | some windV =>
                rw [hw] at hsB
                cases windV with
                | obj wf =>
                    by_cases hsp : (wf.lookup "speed").isSome
                    · by_cases hdg : (wf.lookup "deg").isSome
                      · cases hwe : data.lookup "weather" with
                        | none =>
                            refine ⟨"Missing \x27weather\x27 section", ?_⟩
                            simp only [_validate_required_fields, hm, hc, except_bind_ok,
                              hw, pyContains, hsp, hdg, Bool.not_true, Bool.false_eq_true,
                              if_false, hwe]
                            rfl
                        | some weatherV =>
                            cases weatherV with
                            | arr items =>
                                cases items with
                                | nil =>
                                    refine ⟨"Missing \x27weather\x27 section", ?_⟩
                                    simp only [_validate_required_fields, hm, hc,
                                      except_bind_ok, hw, pyContains, hsp, hdg,
                                      Bool.not_true, Bool.false_eq_true, if_false, hwe]
                                    rfl
                                | cons first rest =>
                                    cases first with
                                    | obj ff =>
                                        exfalso
                                        have hall :=
                                          (check_main_keys_ok_iff mf required_main).mp hc
                                        have htrue : requiredKeysPresent data = true := by
                                          simp only [requiredKeysPresent, hm, hw, hwe,
                                            List.all_eq_true.mpr hall, hsp, hdg,
                                            Bool.and_self, Bool.and_true]
                                        rw [htrue] at h
                                        cases h
                                    | num n =>
                                        refine ⟨"Malformed weather entry", ?_⟩
                                        simp only [_validate_required_fields, hm, hc,
                                          except_bind_ok, hw, pyContains, hsp, hdg,
                                          Bool.not_true, Bool.false_eq_true, if_false, hwe]
                                        rfl
                                    | float r =>
                                        refine ⟨"Malformed weather entry", ?_⟩
                                        simp only [_validate_required_fields, hm, hc,
                                          except_bind_ok, hw, pyContains, hsp, hdg,
                                          Bool.not_true, Bool.false_eq_true, if_false, hwe]
                                        rfl
                                    | str s =>
                                        refine ⟨"Malformed weather entry", ?_⟩
                                        simp only [_validate_required_fields, hm, hc,
                                          except_bind_ok, hw, pyContains, hsp, hdg,
                                          Bool.not_true, Bool.false_eq_true, if_false, hwe]
                                        rfl
                                    | arr a =>
                                        refine ⟨"Malformed weather entry", ?_⟩
                                        simp only [_validate_required_fields, hm, hc,
                                          except_bind_ok, hw, pyContains, hsp, hdg,
                                          Bool.not_true, Bool.false_eq_true, if_false, hwe]
                                        rfl
                            | num n =>
                                refine ⟨"Missing \x27weather\x27 section", ?_⟩
                                simp only [_validate_required_fields, hm, hc, except_bind_ok,
                                  hw, pyContains, hsp, hdg, Bool.not_true,
                                  Bool.false_eq_true, if_false, hwe]
                                rfl
                            | float r =>
                                refine ⟨"Missing \x27weather\x27 section", ?_⟩
                                simp only [_validate_required_fields, hm, hc, except_bind_ok,
                                  hw, pyContains, hsp, hdg, Bool.not_true,
                                  Bool.false_eq_true, if_false, hwe]
                                rfl
                            | str s =>
                                refine ⟨"Missing \x27weather\x27 section", ?_⟩
                                simp only [_validate_required_fields, hm, hc, except_bind_ok,
                                  hw, pyContains, hsp, hdg, Bool.not_true,
                                  Bool.false_eq_true, if_false, hwe]
                                rfl
                            | obj o =>
                                refine ⟨"Missing \x27weather\x27 section", ?_⟩
                                simp only [_validate_required_fields, hm, hc, except_bind_ok,
                                  hw, pyContains, hsp, hdg, Bool.not_true,
                                  Bool.false_eq_true, if_false, hwe]
                                rfl
                      · refine ⟨"Missing wind fields", ?_⟩
                        rw [Bool.not_eq_true] at hdg
                        simp only [_validate_required_fields, hm, hc, except_bind_ok, hw,
                          pyContains, hsp, hdg, Bool.not_true, Bool.false_eq_true, if_false,
                          Bool.not_false, if_true]
                        rfl
                    · refine ⟨"Missing wind fields", ?_⟩
                      rw [Bool.not_eq_true] at hsp
                      simp only [_validate_required_fields, hm, hc, except_bind_ok, hw,
                        pyContains, hsp, Bool.not_false, if_true]
                      rfl
                | num n => cases hsB
                | float r => cases hsB
                | str s => cases hsB
                | arr a => cases hsB
          · refine ⟨msg, ?_⟩
            simp only [_validate_required_fields, hm, hc, except_bind_err]
      | num n => cases hsA
      | float r => cases hsA
      | str s => cases hsA
      | arr a => cases hsA

/-- A validation error propagates through `build_daily_report`. -/
lemma build_err_of_validate (now city : String) (data : List (String × JValue))
    (e : PyErr) (h : _validate_required_fields data = .error e) :
    build_daily_report now city data = .error e := by
  unfold build_daily_report
  rw [h]
  rfl

/-- A successful validation and a successful field extraction give the
fixed 12-line report. -/
lemma build_ok_of (now city : String) (data : List (String × JValue)) (f : ReportFields)
    (hv : _validate_required_fields data = .ok ())
    (he : extract_report_fields city data = .ok f) :
    build_daily_report now city data = .ok (pyJoin "\n" (report_lines now f)) := by
  unfold build_daily_report
  rw [hv, except_bind_ok, he, except_bind_ok]
  rfl

/-- With all required keys present and a well-typed description, the field
extraction of `build_daily_report` succeeds. -/
lemma extract_ok (city : String) (data : List (String × JValue))
    (h : requiredKeysPresent data = true) (hd : descriptionOk data = true) :
    ∃ f, extract_report_fields city data = .ok f := by
  unfold requiredKeysPresent at h
  rw [Bool.and_eq_true, Bool.and_eq_true] at h
  obtain ⟨⟨hA, hB⟩, hC⟩ := h
  cases hm : data.lookup "main" with
  | none => rw [hm] at hA; cases hA
  | some mainV =>
      rw [hm] at hA
      cases mainV with
      | obj mf =>
          have hall : ∀ k ∈ required_main, (mf.lookup k).isSome :=
            fun k hk => List.all_eq_true.mp hA k hk
          obtain ⟨v1, hv1⟩ :=
            Option.isSome_iff_exists.mp (hall "temp" (by simp [required_main]))
          obtain ⟨v2, hv2⟩ :=
            Option.isSome_iff_exists.mp (hall "feels_like" (by simp [required_main]))
          obtain ⟨v3, hv3⟩ :=
            Option.isSome_iff_exists.mp (hall "temp_min" (by simp [required_main]))
          obtain ⟨v4, hv4⟩ :=
            Option.isSome_iff_exists.mp (hall "temp_max" (by simp [required_main]))
          obtain ⟨v5, hv5⟩ :=
            Option.isSome_iff_exists.mp (hall "humidity" (by simp [required_main]))
          obtain ⟨v6, hv6⟩ :=
            Option.isSome_iff_exists.mp (hall "pressure" (by simp [required_main]))
          cases hw : data.lookup "wind" with
          | none => rw [hw] at hB; cases hB
          | some windV =>
              rw [hw] at hB
              cases windV with
              | obj wf =>
                  rw [Bool.and_eq_true] at hB
                  obtain ⟨hsp, hdg⟩ := hB
                  obtain ⟨w1, hw1⟩ := Option.isSome_iff_exists.mp hsp
                  obtain ⟨w2, hw2⟩ := Option.isSome_iff_exists.mp hdg
                  cases hwe : data.lookup "weather" with
                  | none => rw [hwe] at hC; cases hC
                  | some weatherV =>
                      rw [hwe] at hC
                      cases weatherV with
                      | arr items =>
                          cases items with
                          | nil => cases hC
                          | cons first rest =>
                              cases first with
                              | obj ff =>
                                  cases hdesc : ff.lookup "description" with
                                  | none =>
                                      simp only [extract_report_fields, JValue.getItem, hm,
                                        hw, hwe, except_bind_ok, hdesc, hv1, hv2, hv3, hv4,
                                        hv5, hv6, hw1, hw2, Option.getD]
                                      exact ⟨_, rfl⟩
                                  | some dv =>
                                      simp only [descriptionOk, hwe, hdesc] at hd
                                      cases dv with
                                      | str ds =>
                                          simp only [extract_report_fields, JValue.getItem,
                                            hm, hw, hwe, except_bind_ok, hdesc, hv1, hv2,
                                            hv3, hv4, hv5, hv6, hw1, hw2, Option.getD]
                                          exact ⟨_, rfl⟩
                                      | num n => cases hd
                                      | float r => cases hd
                                      | arr a => cases hd
                                      | obj o => cases hd
                              | num n => cases hC
                              | float r => cases hC
                              | str s => cases hC
                              | arr a => cases hC
                      | num n => cases hC
                      | float r => cases hC
                      | str s => cases hC
                      | obj o => cases hC
              | num n => cases hB
              | float r => cases hB
              | str s => cases hB
              | arr a => cases hB
      | num n => cases hA
      | float r => cases hA
      | str s => cases hA
      | arr a => cases hA

/-! ### Claim theorems -/

/-- C1 is false on the code: in `get_current_weather` the `WeatherApiError`
raised for an HTTP 4xx (line 62) is caught by the blanket
`except Exception` (line 90), so a 4xx does not end the call chain.  With a
404 on attempt 1 and a valid body on attempt 2, the fetch classifies
attempt 1 as a client error, yet makes a second attempt and succeeds —
contradicting "no further attempts are made and the fetch fails". -/
theorem c1_counterexample :
    classifyAttempt (envAfter404 1) = .failure (.clientError 404) ∧
      (get_current_weather default_max_retries default_retry_delay envAfter404).result
        = .ok okBody ∧
      (get_current_weather default_max_retries default_retry_delay envAfter404).attempts
        = 2 :=
  ⟨rfl, rfl, rfl⟩

/-- C1 (amended): an HTTP client-error (4xx) response is counted as an
attempt but is retryable exactly like the other failures: it is classified
as a distinct client-error failure, and when it occurs on attempt
`i < max_retries` (the attempts before it having failed) the fetch makes at
least one further attempt instead of stopping. -/
theorem c1_amended (mr : Nat) (rd : ℚ) (env : Nat → ApiResponse) (i : Nat)
    (h1 : 1 ≤ i) (hlt : i < mr)
    (hfail : ∀ j, 1 ≤ j → j ≤ i → ∃ f, classifyAttempt (env j) = .failure f)
    (hstatus : ∃ s, env i = .httpError s ∧ 400 ≤ s ∧ s < 500) :
    (∃ s, classifyAttempt (env i) = .failure (.clientError s)) ∧
      i + 1 ≤ (get_current_weather mr rd env).attempts := by
  constructor
  · obtain ⟨s, hs, h4, h5⟩ := hstatus
    refine ⟨s, ?_⟩
    rw [hs]
    simp [classifyAttempt, h4, h5]
  · exact fetchAux_reaches rd env mr 1 none i (by omega) (by omega)
      (fun j hj1 hj2 => hfail j hj1 hj2)

/-- Witness for the amended C1 at the concrete 404-then-valid scenario. -/
theorem c1_amended_witness :
    (∃ s, classifyAttempt (envAfter404 1) = .failure (.clientError s)) ∧
      2 ≤ (get_current_weather 3 (3 / 2) envAfter404).attempts :=
  c1_amended 3 (3 / 2) envAfter404 1 (by omega) (by omega)
    (fun j hj1 hj2 => ⟨.clientError 404, by
      have hj : j = 1 := by omega
      subst hj
      rfl⟩)
    ⟨404, rfl, by omega, by omega⟩

/-- C2: when every attempt fails with a retryable failure, the fetcher
makes exactly `max_retries` attempts and raises `WeatherApiError` carrying
the last observed failure; and for two retryable failures followed by a
valid body under the default `max_retries = 3`, it makes exactly 3 attempts
and returns the valid body unchanged. -/
theorem c2_retry_budget :
    (∀ (mr : Nat) (rd : ℚ) (env : Nat → ApiResponse), 1 ≤ mr →
      (∀ j, 1 ≤ j → j ≤ mr → ∃ f, classifyAttempt (env j) = .failure f) →
      ∃ flast, classifyAttempt (env mr) = .failure flast ∧
        (get_current_weather mr rd env).result = .error (some flast) ∧
        (get_current_weather mr rd env).attempts = mr)
    ∧ (∀ (rd : ℚ) (env : Nat → ApiResponse) (body : List (String × JValue)),
        (∃ f, classifyAttempt (env 1) = .failure f) →
        (∃ f, classifyAttempt (env 2) = .failure f) →
        classifyAttempt (env 3) = .success body →
        (get_current_weather default_max_retries rd env).result = .ok body ∧
          (get_current_weather default_max_retries rd env).attempts = 3) := by
  constructor
  · intro mr rd env hmr hf
    obtain ⟨flast, hcl, hres, hatt⟩ :=
      fetchAux_exhaust rd env mr 1 none hmr
        (fun j hj1 hj2 => hf j hj1 (by omega))
    have h1 : 1 + mr - 1 = mr := by omega
    rw [h1] at hcl hatt
    exact ⟨flast, hcl, hres, hatt⟩
  · intro rd env body h1 h2 h3
    exact fetchAux_success rd env 3 1 none 3 body (by omega) (by omega)
      (fun j hj1 hj2 => by
        have hj : j = 1 ∨ j = 2 := by omega
        rcases hj with hj | hj
        · subst hj; exact h1
        · subst hj; exact h2)
      h3

/-- Witness for C2: all-500 responses exhaust exactly 3 attempts with the
server error as context; 500, 500, valid-body succeeds on attempt 3. -/
theorem c2_retry_budget_witness :
    (∃ flast, classifyAttempt (envAll500 3) = .failure flast ∧
      (get_current_weather 3 (3 / 2) envAll500).result = .error (some flast) ∧
      (get_current_weather 3 (3 / 2) envAll500).attempts = 3)
    ∧ ((get_current_weather default_max_retries (3 / 2) env500x2).result = .ok okBody ∧
        (get_current_weather default_max_retries (3 / 2) env500x2).attempts = 3) :=
  ⟨c2_retry_budget.1 3 (3 / 2) envAll500 (by omega)
      (fun j hj1 hj2 => ⟨.serverError 500, rfl⟩),
    c2_retry_budget.2 (3 / 2) env500x2 okBody
      ⟨.serverError 500, rfl⟩ ⟨.serverError 500, rfl⟩ rfl⟩

/-- C3: a JSON-object body missing `main` or `weather` is never returned as
success — every successful fetch returns a parsed object that contains both
keys, unchanged from some attempt's response; and when the attempts before
the last fail and the last attempt's body is an object missing `main` or
`weather`, that attempt is classified as a retryable missing-keys failure
and the call raises `WeatherApiError` with it as context. -/
theorem c3_missing_keys :
    (∀ (mr : Nat) (rd : ℚ) (env : Nat → ApiResponse) (body : List (String × JValue)),
      (get_current_weather mr rd env).result = .ok body →
      (body.lookup "main").isSome ∧ (body.lookup "weather").isSome ∧
        ∃ i, 1 ≤ i ∧ i ≤ mr ∧ env i = .jsonVal (.obj body))
    ∧ (∀ (mr : Nat) (rd : ℚ) (env : Nat → ApiResponse)
        (fields : List (String × JValue)), 1 ≤ mr →
        (∀ j, 1 ≤ j → j < mr → ∃ f, classifyAttempt (env j) = .failure f) →
        env mr = .jsonVal (.obj fields) →
        (fields.lookup "main" = none ∨ fields.lookup "weather" = none) →
        classifyAttempt (env mr) = .failure .missingKeys ∧
          (get_current_weather mr rd env).result = .error (some .missingKeys)) := by
  constructor
  · intro mr rd env body h
    obtain ⟨i, hi1, hi2, hi3⟩ := fetchAux_ok rd env mr 1 none body h
    obtain ⟨henv, hm, hw⟩ := classifyAttempt_success (env i) body hi3
    exact ⟨hm, hw, i, hi1, by omega, henv⟩
  · intro mr rd env fields hmr hf henv hmiss
    have hcl : classifyAttempt (env mr) = .failure .missingKeys := by
      rw [henv]
      simp only [classifyAttempt]
      rcases hmiss with hm | hw
      · rw [if_neg]
        simp [hm]
      · rw [if_neg]
        simp [hw]
    refine ⟨hcl, ?_⟩
    obtain ⟨flast, hcl2, hres, _⟩ :=
      fetchAux_exhaust rd env mr 1 none hmr
        (fun j hj1 hj2 => by
          by_cases hj : j < mr
          · exact hf j hj1 hj
          · have hjm : j = mr := by omega
            subst hjm
            exact ⟨.missingKeys, hcl⟩)
    have h1 : 1 + mr - 1 = mr := by omega
    rw [h1] at hcl2
    rw [hcl] at hcl2
    cases hcl2
    exact hres

/-- Witness for C3: a fetch that succeeds on attempt 3 returns a body with
both keys, and an all-missing-keys environment raises after the last
attempt with the missing-keys failure as context. -/
theorem c3_missing_keys_witness :
    ((okBody.lookup "main").isSome ∧ (okBody.lookup "weather").isSome ∧
      ∃ i, 1 ≤ i ∧ i ≤ 3 ∧ env500x2 i = .jsonVal (.obj okBody))
    ∧ (classifyAttempt (envMissingKeys 3) = .failure .missingKeys ∧
        (get_current_weather 3 (3 / 2) envMissingKeys).result
          = .error (some .missingKeys)) :=
  ⟨c3_missing_keys.1 3 (3 / 2) env500x2 okBody rfl,
    c3_missing_keys.2 3 (3 / 2) envMissingKeys [("cod", .num 404)] (by omega)
      (fun j hj1 hj2 => ⟨.missingKeys, rfl⟩) rfl (Or.inl rfl)⟩

/-- C4: the sleeps performed by a fetch are exactly one back-off delay per
non-final attempt, in order: the delay after attempt `i` is
`retry_delay * 2 ^ (i - 1)`, and no delay follows the final attempt (the
list has one entry fewer than the number of attempts). -/
theorem c4_backoff (mr : Nat) (rd : ℚ) (env : Nat → ApiResponse) :
    (get_current_weather mr rd env).delays
        = (List.range ((get_current_weather mr rd env).attempts - 1)).map
            (fun j => rd * 2 ^ j) ∧
      (get_current_weather mr rd env).delays.length
        = (get_current_weather mr rd env).attempts - 1 := by
  have h := fetchAux_delays rd env mr 1 none (le_refl 1)
  constructor
  · simpa using h
  · rw [show (get_current_weather mr rd env).delays
        = (fetchAux rd env mr 1 none).delays from rfl, h]
    simp [get_current_weather]

/-- C6: a transient `AutoReconnect` on the first insert followed by a
successful single retry stores exactly one document and raises nothing;
when the retry also fails, `save_weather_report` raises `DatabaseError`
wrapping the retry's failure; and no run ever calls insert more than
twice. -/
theorem c6_save_retry_once :
    (∀ (fs : List (String × JValue)) (env : Nat → InsertOutcome),
      env 0 = .autoReconnect → env 1 = .ok →
      save_weather_report (.obj fs) env
        = { insertCalls := 2, stored := 1, outcome := none })
    ∧ (∀ (fs : List (String × JValue)) (env : Nat → InsertOutcome),
        env 0 = .autoReconnect → env 1 ≠ .ok →
        save_weather_report (.obj fs) env
          = { insertCalls := 2, stored := 0, outcome := some (.retryFailed (env 1)) })
    ∧ (∀ (raw : JValue) (env : Nat → InsertOutcome),
        (save_weather_report raw env).insertCalls ≤ 2) := by
  refine ⟨?_, ?_, ?_⟩
  · intro fs env h0 h1
    simp [save_weather_report, h0, h1]
  · intro fs env h0 h1
    cases he : env 1 with
    | ok => exact absurd he h1
    | autoReconnect => simp [save_weather_report, h0, he]
    | pyMongoError => simp [save_weather_report, h0, he]
  · intro raw env
    cases raw <;> simp [save_weather_report]
    cases h0 : env 0 <;> simp
    cases h1 : env 1 <;> simp

/-- Witness for C6 at concrete insert environments: retry-then-ok stores
one document with no error; retry-also-fails raises the wrapped
`DatabaseError`. -/
theorem c6_save_retry_once_witness :
    (save_weather_report (.obj payload8) envDbRetryOk
      = { insertCalls := 2, stored := 1, outcome := none })
    ∧ (save_weather_report (.obj payload8) envDbAllDown
        = { insertCalls := 2, stored := 0, outcome := some (.retryFailed .autoReconnect) })
    ∧ (save_weather_report (.num 3) envDbAllDown).insertCalls ≤ 2 :=
  ⟨c6_save_retry_once.1 payload8 envDbRetryOk rfl rfl,
    c6_save_retry_once.2.1 payload8 envDbAllDown rfl (by simp [envDbAllDown]),
    c6_save_retry_once.2.2 (.num 3) envDbAllDown⟩

/-- C7: none of the sanitizers lets a line-break character through — the
city-query sanitizer of the weather service, the free-text sanitizer of
the report service, and the header sanitizer of the email service all
produce outputs containing neither `\n` nor `\r`. -/
theorem c7_sanitizers_remove_linebreaks (s : String) :
    ('\n' ∉ (sanitize_query s).data ∧ '\r' ∉ (sanitize_query s).data)
    ∧ ('\n' ∉ (_sanitize_text s).data ∧ '\r' ∉ (_sanitize_text s).data)
    ∧ ('\n' ∉ (_sanitize_header s).data ∧ '\r' ∉ (_sanitize_header s).data) := by
  refine ⟨⟨?_, ?_⟩, strip_replace_no_linebreaks s, strip_replace_no_linebreaks s⟩
  · intro h
    simp only [sanitize_query] at h
    rw [List.mem_filter] at h
    exact absurd h.2 (by decide)
  · intro h
    simp only [sanitize_query] at h
    rw [List.mem_filter] at h
    exact absurd h.2 (by decide)

/-- C5: on a payload whose `main`/`wind` sections (when present) are dicts
but which misses any required field — the `main` section or any of its six
sub-fields, the `wind` section or either of its sub-fields, or a non-empty
`weather` list with a dict first entry — validation raises a `KeyError`
(at the first requirement that fails, by the sequential checks of
`_validate_required_fields`), `build_daily_report` raises that same
`KeyError`, and no report string is returned (so no field is silently
defaulted). -/
theorem c5_missing_field_keyerror (now city : String) (data : List (String × JValue))
    (hs : saneSections data = true) (h : requiredKeysPresent data = false) :
    ∃ msg, _validate_required_fields data = .error (.keyError msg) ∧
      build_daily_report now city data = .error (.keyError msg) := by
  obtain ⟨msg, hmsg⟩ := validate_keyError_of_missing data hs h
  exact ⟨msg, hmsg, build_err_of_validate now city data _ hmsg⟩

/-- Witness for C5 at the spec §8 payload with `humidity` removed. -/
theorem c5_missing_field_keyerror_witness :
    ∃ msg, _validate_required_fields payloadNoHumidity = .error (.keyError msg) ∧
      build_daily_report "01.01.2025 08:00" "Istanbul" payloadNoHumidity
        = .error (.keyError msg) :=
  c5_missing_field_keyerror "01.01.2025 08:00" "Istanbul" payloadNoHumidity rfl rfl

/-- C8: on the spec §8 payload and city `"Istanbul"`, `build_daily_report`
succeeds for every timestamp, producing exactly the fixed line order —
timestamped header, separator, city, condition, temperature, feels-like,
min/max, humidity, pressure, wind, closing separator, sign-off — with a
line containing `"Istanbul"`, a line containing `"20"`, and a line
containing `"clear sky"`. -/
theorem c8_istanbul_report (now_str : String) :
    build_daily_report now_str "Istanbul" payload8
        = .ok (pyJoin "\n"
            [ "WEATHER REPORT (Daily) - " ++ now_str,
              report_separator,
              "City: Istanbul",
              "Condition: clear sky",
              "Temperature: 20°C",
              "Feels Like: 19°C",
              "Minimum / Maximum: 18°C / 22°C",
              "Humidity: 60%",
              "Pressure: 1012 hPa",
              "Wind Speed: 3.5 m/s, Yön: 180°",
              report_separator,
              "We wish you a good day." ])
      ∧ strContains "City: Istanbul" "Istanbul" = true
      ∧ strContains "Temperature: 20°C" "20" = true
      ∧ strContains "Condition: clear sky" "clear sky" = true :=
  ⟨rfl, by decide, by decide, by decide⟩

/-- C9: two successful `build_daily_report` calls on the same city and
payload differ only in the embedded current-time header: both reports are
the header line for their own timestamp followed by one identical
remainder. -/
theorem c9_idempotent_modulo_header (now1 now2 city : String)
    (data : List (String × JValue)) (r1 r2 : String)
    (h1 : build_daily_report now1 city data = .ok r1)
    (h2 : build_daily_report now2 city data = .ok r2) :
    ∃ rest, r1 = "WEATHER REPORT (Daily) - " ++ now1 ++ "\n" ++ rest ∧
      r2 = "WEATHER REPORT (Daily) - " ++ now2 ++ "\n" ++ rest := by
  unfold build_daily_report at h1 h2
  cases hv : _validate_required_fields data with
  | error e =>
      rw [hv, except_bind_err] at h1
      exact absurd h1 (by simp)
  | ok u =>
      cases u
      rw [hv, except_bind_ok] at h1 h2
      cases he : extract_report_fields city data with
      | error e =>
          rw [he, except_bind_err] at h1
          exact absurd h1 (by simp)
      | ok f =>
          rw [he, except_bind_ok] at h1 h2
          have hr1 : pyJoin "\n" (report_lines now1 f) = r1 := by
            rw [show (pure (pyJoin "\n" (report_lines now1 f)) : Except PyErr String)
              = .ok (pyJoin "\n" (report_lines now1 f)) from rfl] at h1
            exact Except.ok.inj h1
          have hr2 : pyJoin "\n" (report_lines now2 f) = r2 := by
            rw [show (pure (pyJoin "\n" (report_lines now2 f)) : Except PyErr String)
              = .ok (pyJoin "\n" (report_lines now2 f)) from rfl] at h2
            exact Except.ok.inj h2
          exact ⟨pyJoin "\n" (report_lines now1 f).tail, hr1.symm, hr2.symm⟩

/-- Witness for C9 on the spec §8 payload with two different timestamps. -/
theorem c9_idempotent_modulo_header_witness :
    ∃ rest,
      pyJoin "\n" (report_lines "01.01.2025 08:00"
          ⟨"clear sky", "Istanbul", "20", "19", "18", "22", "60", "1012", "3.5", "180"⟩)
        = "WEATHER REPORT (Daily) - 01.01.2025 08:00" ++ "\n" ++ rest ∧
      pyJoin "\n" (report_lines "02.01.2025 09:30"
          ⟨"clear sky", "Istanbul", "20", "19", "18", "22", "60", "1012", "3.5", "180"⟩)
        = "WEATHER REPORT (Daily) - 02.01.2025 09:30" ++ "\n" ++ rest :=
  c9_idempotent_modulo_header "01.01.2025 08:00" "02.01.2025 09:30" "Istanbul" payload8
    (pyJoin "\n" (report_lines "01.01.2025 08:00"
      ⟨"clear sky", "Istanbul", "20", "19", "18", "22", "60", "1012", "3.5", "180"⟩))
    (pyJoin "\n" (report_lines "02.01.2025 09:30"
      ⟨"clear sky", "Istanbul", "20", "19", "18", "22", "60", "1012", "3.5", "180"⟩))
    rfl rfl

/-- C10 is false as universally stated: a payload can contain all six
`main` keys, both `wind` keys, and a non-empty `weather` list whose first
element is a dict, and still make `build_daily_report` fail — when that
first entry's `description` is not a string, the text sanitizer's
`.replace` call fails (`AttributeError`), so no report is returned. -/
theorem c10_counterexample :
    requiredKeysPresent payloadBadDescription = true ∧
      build_daily_report "01.01.2025 08:00" "Istanbul" payloadBadDescription
        = .error .attributeError :=
  ⟨rfl, rfl⟩

/-- C10 (amended): the pre-validation checks only key presence, never value
types — for every payload with all six `main` keys, both `wind` keys, and
a non-empty `weather` list whose first element is a dict, and whose first
weather entry's `description` (when present) is a string,
`build_daily_report` succeeds and returns a report even when the
`main`/`wind` field values are non-numeric (e.g. strings). -/
theorem c10_presence_only_validation (now city : String)
    (data : List (String × JValue)) (h : requiredKeysPresent data = true)
    (hd : descriptionOk data = true) :
    ∃ r, build_daily_report now city data = .ok r := by
  obtain ⟨f, hf⟩ := extract_ok city data h hd
  exact ⟨_, build_ok_of now city data f (validate_ok_of_required data h) hf⟩

/-- Witness for the amended C10 at a payload whose `main` and `wind`
values are all strings. -/
theorem c10_presence_only_validation_witness :
    ∃ r, build_daily_report "01.01.2025 08:00" "Istanbul" payloadStringValues = .ok r :=
  c10_presence_only_validation "01.01.2025 08:00" "Istanbul" payloadStringValues rfl rfl

end WeatherProject
